import Mathlib

/-!
Verification of the `ordinalize` derive macro (`src/lib.rs`).

The crate is a proc-macro that, for an enum declaration, emits
`impl EnumIdent { pub fn ordinal(&self) -> usize { match self { ... } } }`
with one match arm per declared variant, mapping the i-th variant (in
declaration order, 0-based) to the literal `i`.

Shallow embedding:
* the syntactic input (`syn::DeriveInput`) becomes `DeriveInput`, whose
  `data` is either an enum (an ordered list of `SynVariant`), a struct or a
  union;
* the macro's intermediate `struct Variant` and the functions
  `detect_variant`, `detect_variants`, `generate_match_arms` and
  `derive_ordinal` are translated one-to-one;
* the token stream the macro would emit is represented structurally: the
  pattern of each arm is a `Pattern` (bare path `E::V`, tuple pattern
  `E::V(_, ..., _)` with a recorded wildcard count, or brace pattern
  `E::V { .. }`), an arm pairs a pattern with its ordinal, and the emitted
  impl block is a `GeneratedImpl` recording the type name spliced after
  `impl`, the generic parameters repeated in the impl header (none are,
  since the macro splices only the bare ident), and the arm list;
* `abort_call_site!` becomes the `compileError` outcome carrying the
  message and the `callSite` location, `unreachable!()` becomes the
  `panicked` outcome;
* runtime behaviour of the generated `match` is given by `FieldData`
  (the field contents a value of some variant carries), `conformsData`
  (the value's contents conform to the variant's declared field list),
  `patternMatchesValue` (Rust pattern semantics for the three pattern
  forms emitted here: wildcard slots and `..` match any contents, the
  variant tag must agree, arities must agree, and a bare path pattern
  matches only unit-variant values) and `runMatch` (first matching arm
  wins, as in a Rust `match`); `patternWellFormed` models the host
  compiler's static legality check on the emitted patterns (a bare path
  pattern against a tuple variant, even a zero-field one, is Rust's hard
  error E0532, and the generated code then does not compile).
-/

/-- The field list of one declared variant, mirroring `syn::Fields`:
named fields (name/type pairs), no fields (unit), or a list of unnamed
field types. -/
inductive Fields where
  | named : List (String × String) → Fields
  | unit : Fields
  | unnamed : List String → Fields
deriving DecidableEq

/-- One declared variant of the input enum, mirroring `syn::Variant`:
its identifier and its field list. -/
structure SynVariant where
  ident : String
  fields : Fields
deriving DecidableEq

/-- The body of the input declaration, mirroring `syn::Data`. -/
inductive Data where
  | dataEnum : List SynVariant → Data
  | dataStruct : Fields → Data
  | dataUnion : List (String × String) → Data
deriving DecidableEq

/-- The parsed derive input, mirroring `syn::DeriveInput`: the type's
identifier, its generic parameters (as written on the declaration), and
its body. -/
structure DeriveInput where
  ident : String
  generics : List String
  data : Data
deriving DecidableEq

/-- The macro's intermediate record (`struct Variant` in `src/lib.rs`). -/
structure Variant where
  ident : String
  unit_field_count : Nat
  has_named_fields : Bool
deriving DecidableEq

/-- Where a macro error is reported. `abort_call_site!` attaches the error
to the call site of the derive request. -/
inductive ErrorLocation where
  | callSite : ErrorLocation
deriving DecidableEq

/-- A fatal macro error: its message and where it is reported. -/
structure MacroError where
  message : String
  location : ErrorLocation
deriving DecidableEq

/-- The pattern of one emitted match arm. `barePat e v` is `e::v`,
`tuplePat e v n` is `e::v(_, ..., _)` with `n` wildcard slots,
`bracePat e v` is `e::v { .. }`. -/
inductive Pattern where
  | barePat : String → String → Pattern
  | tuplePat : String → String → Nat → Pattern
  | bracePat : String → String → Pattern
deriving DecidableEq

/-- One emitted match arm `pattern => ordinal`. -/
structure MatchArm where
  pattern : Pattern
  ordinal : Nat
deriving DecidableEq

/-- The emitted impl block: the type name spliced after `impl`, the
generic parameters repeated in the impl header, and the match arms of the
generated `ordinal` method. -/
structure GeneratedImpl where
  typeName : String
  generics : List String
  arms : List MatchArm
deriving DecidableEq

/-- Outcome of one macro invocation: success, a fatal compile error
(`abort_call_site!`), or a panic (`unreachable!()`). -/
inductive DeriveResult where
  | ok : GeneratedImpl → DeriveResult
  | compileError : MacroError → DeriveResult
  | panicked : DeriveResult
deriving DecidableEq

/-- `fn detect_variant` from `src/lib.rs`: named fields give
`(0, true)`, unit gives `(0, false)`, unnamed fields give
`(len, false)`. -/
def detect_variant (variant : SynVariant) : Variant :=
  match variant.fields with
  | Fields.named _ =>
      { ident := variant.ident, unit_field_count := 0, has_named_fields := true }
  | Fields.unit =>
      { ident := variant.ident, unit_field_count := 0, has_named_fields := false }
  | Fields.unnamed unnanmed =>
      { ident := variant.ident, unit_field_count := unnanmed.length,
        has_named_fields := false }

/-- `fn detect_variants` from `src/lib.rs`: on a non-enum input it
aborts at the call site; on an enum it maps `detect_variant` over the
variants in declaration order. -/
def detect_variants (input : DeriveInput) : Except MacroError (List Variant) :=
  match input.data with
  | Data.dataEnum data => Except.ok (data.map detect_variant)
  | _ => Except.error
      { message := "cannot derive `Ordinal` on an item which is not an enum",
        location := ErrorLocation.callSite }

/-- The pattern construction inside the loop of `fn generate_match_arms`:
the Rust `match (variant.has_named_fields, variant.unit_field_count)`
with arms `(true, _)`, `(false, x) if x != 0`, `(false, 0)` and a final
`_ => unreachable!()`, the last modelled as `none`. -/
def generate_pattern (enumIdent : String) (variant : Variant) : Option Pattern :=
  if variant.has_named_fields = true then
    some (Pattern.bracePat enumIdent variant.ident)
  else if variant.unit_field_count ≠ 0 then
    some (Pattern.tuplePat enumIdent variant.ident variant.unit_field_count)
  else if variant.has_named_fields = false ∧ variant.unit_field_count = 0 then
    some (Pattern.barePat enumIdent variant.ident)
  else
    none

/-- The `for (ordinal, variant) in variants.iter().enumerate()` loop of
`fn generate_match_arms`, with the running ordinal made explicit.
A `none` from `generate_pattern` (the `unreachable!()` arm) aborts the
whole loop with `none` (a panic). -/
def generate_match_arms_go (enumIdent : String) (ordinal : Nat) :
    List Variant → Option (List MatchArm)
  | [] => some []
  | variant :: rest =>
    match generate_pattern enumIdent variant,
          generate_match_arms_go enumIdent (ordinal + 1) rest with
    | some pat, some arms => some ({ pattern := pat, ordinal := ordinal } :: arms)
    | _, _ => none

/-- `fn generate_match_arms` from `src/lib.rs`. -/
def generate_match_arms (variants : List Variant) (input : DeriveInput) :
    Option (List MatchArm) :=
  generate_match_arms_go input.ident 0 variants

/-- `fn derive_ordinal` from `src/lib.rs`: detect the variants (aborting
at the call site on a non-enum), generate the match arms, and emit
`impl #enum_ident { pub fn ordinal(&self) -> usize { match self { ... } } }`.
The `quote!` splices only the bare `#enum_ident` after `impl`, so the
emitted impl header repeats no generic parameters: `generics := []`. -/
def derive_ordinal (input : DeriveInput) : DeriveResult :=
  match detect_variants input with
  | Except.error e => DeriveResult.compileError e
  | Except.ok variants =>
    match generate_match_arms variants input with
    | none => DeriveResult.panicked
    | some arms =>
        DeriveResult.ok
          { typeName := input.ident, generics := [], arms := arms }

/-- Runtime field contents carried by a value of the enum: a unit variant
carries nothing, a tuple variant a list of positional field values, a
struct variant a list of named field values. Field values are drawn from
`Nat` as an opaque payload type; the generated patterns never inspect
them. -/
inductive FieldData where
  | unitData : FieldData
  | unnamedData : List Nat → FieldData
  | namedData : List (String × Nat) → FieldData
deriving DecidableEq

/-- A value's field contents conform to a variant's declared field list:
a unit variant's value carries nothing, a tuple variant's value carries
exactly as many positional values as declared fields, a struct variant's
value carries exactly the declared field names. -/
def conformsData : Fields → FieldData → Bool
  | Fields.named ns, FieldData.namedData m => m.map Prod.fst == ns.map Prod.fst
  | Fields.unit, FieldData.unitData => true
  | Fields.unnamed ts, FieldData.unnamedData xs => xs.length == ts.length
  | _, _ => false

/-- Rust pattern semantics for the three pattern forms the macro emits,
against a value given by its variant identifier and field contents:
the variant tag must agree; a bare path pattern matches exactly the
values of a unit variant (in Rust a path pattern against a tuple
variant, even a zero-field one, is the hard error E0532 — the static
side of that is `patternWellFormed`, and this runtime semantics
accordingly never lets a bare path match a tuple-variant value);
a tuple pattern of arity `n` matches a tuple value with exactly `n`
positional fields (each slot a wildcard, so contents are ignored);
a brace pattern `{ .. }` matches a struct-variant value with any
fields. -/
def patternMatchesValue : Pattern → String → FieldData → Bool
  | Pattern.barePat _ vid, ident, FieldData.unitData => vid == ident
  | Pattern.barePat _ _, _, FieldData.unnamedData _ => false
  | Pattern.barePat _ _, _, FieldData.namedData _ => false
  | Pattern.tuplePat _ vid n, ident, FieldData.unnamedData xs =>
      vid == ident && xs.length == n
  | Pattern.tuplePat _ _ _, _, _ => false
  | Pattern.bracePat _ vid, ident, FieldData.namedData _ => vid == ident
  | Pattern.bracePat _ _, _, _ => false

/-- Rust's static legality of an emitted pattern against the enum
declaration: a path pattern `E::V` is legal only when `V` is declared as
a unit variant — against a tuple variant, even `V()`, it is the hard
error E0532 and the generated code does not compile; a tuple pattern of
arity `n` is legal when `V` is declared with exactly `n` unnamed fields
(E0023 otherwise); a brace pattern `E::V { .. }` is legal for any
declared variant. -/
def patternWellFormed (vs : List SynVariant) : Pattern → Bool
  | Pattern.barePat _ vid =>
      vs.any (fun sv => sv.ident == vid && (sv.fields == Fields.unit))
  | Pattern.tuplePat _ vid n =>
      vs.any (fun sv => sv.ident == vid &&
        (match sv.fields with
         | Fields.unnamed ts => ts.length == n
         | _ => false))
  | Pattern.bracePat _ vid =>
      vs.any (fun sv => sv.ident == vid)

/-- Static legality of one emitted arm against the enum declaration. -/
def armWellFormed (vs : List SynVariant) (arm : MatchArm) : Bool :=
  patternWellFormed vs arm.pattern

/-- Whether some variant of the enum is declared with an empty
unnamed-field list (a zero-arity tuple variant such as `V()`). -/
def hasZeroArityTuple (vs : List SynVariant) : Bool :=
  vs.any (fun sv => sv.fields == Fields.unnamed [])

/-- Evaluation of the generated `match`: arms are tried in order and the
first matching arm's ordinal is returned; `none` means no arm matched. -/
def runMatch : List MatchArm → String → FieldData → Option Nat
  | [], _, _ => none
  | arm :: rest, ident, d =>
    if patternMatchesValue arm.pattern ident d then some arm.ordinal
    else runMatch rest ident d

/-- The variant identifier a pattern tests for. -/
def patternIdentOf : Pattern → String
  | Pattern.barePat _ vid => vid
  | Pattern.tuplePat _ vid _ => vid
  | Pattern.bracePat _ vid => vid

/-- The variant identifier an arm's pattern tests for. -/
def armVariantIdent (arm : MatchArm) : String :=
  patternIdentOf arm.pattern

/-- The record invariant behind the `unreachable!()` arm: a `Variant`
with named fields records a zero unit-field count. -/
def variantInvariant (v : Variant) : Bool :=
  !v.has_named_fields || v.unit_field_count == 0

/-- The abstract shape vocabulary of the spec. -/
inductive Shape where
  | NoFields : Shape
  | UnnamedFields : Nat → Shape
  | NamedFields : Shape
deriving DecidableEq

/-- Shape detection as the spec words it, with its fixed precedence:
named fields first (names and types discarded), else an unnamed-field
list (its length kept, possibly zero), else no fields. -/
def declaredShape : Fields → Shape
  | Fields.named _ => Shape.NamedFields
  | Fields.unnamed ts => Shape.UnnamedFields ts.length
  | Fields.unit => Shape.NoFields

/-- How the macro's `Variant` record represents a shape: the
`unit_field_count` component. -/
def shapeFieldCount : Shape → Nat
  | Shape.UnnamedFields n => n
  | _ => 0

/-- How the macro's `Variant` record represents a shape: the
`has_named_fields` component. -/
def shapeHasNamed : Shape → Bool
  | Shape.NamedFields => true
  | _ => false

/-- Whether the declaration body is an enum. -/
def isEnumData : Data → Bool
  | Data.dataEnum _ => true
  | _ => false

/-! ### Helper definitions and lemmas -/

/-- The total counterpart of `generate_pattern`: what the loop actually
produces, since the `unreachable!()` arm is never taken. -/
def totalPattern (enumIdent : String) (v : Variant) : Pattern :=
  if v.has_named_fields then Pattern.bracePat enumIdent v.ident
  else if v.unit_field_count ≠ 0 then
    Pattern.tuplePat enumIdent v.ident v.unit_field_count
  else Pattern.barePat enumIdent v.ident

lemma generate_pattern_eq (e : String) (v : Variant) :
    generate_pattern e v = some (totalPattern e v) := by
  rcases v with ⟨id, c, hn⟩
  cases hn <;> cases c <;> simp [generate_pattern, totalPattern]

/-- The total counterpart of the arm-generation loop. -/
def armsTotal (enumIdent : String) (ordinal : Nat) : List Variant → List MatchArm
  | [] => []
  | v :: rest =>
    { pattern := totalPattern enumIdent v, ordinal := ordinal } ::
      armsTotal enumIdent (ordinal + 1) rest

lemma generate_go_eq (e : String) (k : Nat) (l : List Variant) :
    generate_match_arms_go e k l = some (armsTotal e k l) := by
  induction l generalizing k with
  | nil => rfl
  | cons v rest ih =>
      simp [generate_match_arms_go, armsTotal, generate_pattern_eq, ih]

lemma generate_match_arms_eq (variants : List Variant) (input : DeriveInput) :
    generate_match_arms variants input = some (armsTotal input.ident 0 variants) :=
  generate_go_eq input.ident 0 variants

lemma derive_ordinal_enum (name : String) (gs : List String) (vs : List SynVariant) :
    derive_ordinal { ident := name, generics := gs, data := Data.dataEnum vs } =
      DeriveResult.ok
        { typeName := name, generics := [],
          arms := armsTotal name 0 (vs.map detect_variant) } := by
  simp [derive_ordinal, detect_variants, generate_match_arms, generate_go_eq]

lemma derive_ordinal_enum_data (input : DeriveInput) (vs : List SynVariant)
    (h : input.data = Data.dataEnum vs) :
    derive_ordinal input =
      DeriveResult.ok
        { typeName := input.ident, generics := [],
          arms := armsTotal input.ident 0 (vs.map detect_variant) } := by
  obtain ⟨id, gs, d⟩ := input
  simp only at h
  subst h
  exact derive_ordinal_enum id gs vs

lemma armsTotal_length (e : String) (k : Nat) (l : List Variant) :
    (armsTotal e k l).length = l.length := by
  induction l generalizing k with
  | nil => rfl
  | cons v rest ih => simp [armsTotal, ih]

lemma armsTotal_ordinals (e : String) (k : Nat) (l : List Variant) :
    (armsTotal e k l).map MatchArm.ordinal = List.range' k l.length := by
  induction l generalizing k with
  | nil => rfl
  | cons v rest ih => simp [armsTotal, List.range'_succ, ih]

lemma patternIdentOf_totalPattern (e : String) (v : Variant) :
    patternIdentOf (totalPattern e v) = v.ident := by
  unfold totalPattern
  split
  · rfl
  · split <;> rfl

lemma armsTotal_idents (e : String) (k : Nat) (l : List Variant) :
    (armsTotal e k l).map armVariantIdent = l.map Variant.ident := by
  induction l generalizing k with
  | nil => rfl
  | cons v rest ih =>
      simp [armsTotal, armVariantIdent, patternIdentOf_totalPattern, ih]

lemma detect_variant_ident (sv : SynVariant) :
    (detect_variant sv).ident = sv.ident := by
  rcases sv with ⟨id, f⟩
  cases f <;> rfl

lemma detect_variants_idents (vs : List SynVariant) :
    (vs.map detect_variant).map Variant.ident = vs.map SynVariant.ident := by
  induction vs with
  | nil => rfl
  | cons v rest ih => simp [detect_variant_ident, ih]

lemma armsTotal_getElem (e : String) (k : Nat) (l : List Variant)
    (i : Nat) (hi : i < l.length) :
    (armsTotal e k l)[i]? =
      some { pattern := totalPattern e l[i], ordinal := k + i } := by
  induction l generalizing k i with
  | nil => simp at hi
  | cons v rest ih =>
      cases i with
      | zero => simp [armsTotal]
      | succ j =>
          have hj : j < rest.length := by simpa using hi
          have harith : k + 1 + j = k + (j + 1) := by omega
          simp [armsTotal, ih (k + 1) j hj, harith]

lemma patternMatches_ident (p : Pattern) (ident : String) (d : FieldData)
    (h : patternMatchesValue p ident d = true) : patternIdentOf p = ident := by
  cases p <;> cases d <;> simp_all [patternMatchesValue, patternIdentOf]

lemma totalPattern_no_match (e : String) (v : Variant) (ident : String)
    (d : FieldData) (hne : v.ident ≠ ident) :
    patternMatchesValue (totalPattern e v) ident d = false := by
  cases hmatch : patternMatchesValue (totalPattern e v) ident d with
  | false => rfl
  | true =>
      have hid := patternMatches_ident _ _ _ hmatch
      rw [patternIdentOf_totalPattern] at hid
      exact absurd hid hne

lemma totalPattern_matches_conform (e : String) (sv : SynVariant) (d : FieldData)
    (hd : conformsData sv.fields d = true)
    (hz : sv.fields ≠ Fields.unnamed []) :
    patternMatchesValue (totalPattern e (detect_variant sv)) sv.ident d = true := by
  rcases sv with ⟨id, f⟩
  cases f with
  | named ns => cases d <;> simp_all [conformsData, detect_variant, totalPattern,
      patternMatchesValue]
  | unit => cases d <;> simp_all [conformsData, detect_variant, totalPattern,
      patternMatchesValue]
  | unnamed ts =>
      have hts : ts ≠ [] := by
        intro h
        exact hz (by simp [h])
      have h0 : ts.length ≠ 0 := by
        simpa [List.length_eq_zero] using hts
      cases d <;> simp_all [conformsData, detect_variant, totalPattern,
        patternMatchesValue]

lemma conform_match_congr (f : Fields) (d1 d2 : FieldData)
    (h1 : conformsData f d1 = true) (h2 : conformsData f d2 = true)
    (p : Pattern) (ident : String) :
    patternMatchesValue p ident d1 = patternMatchesValue p ident d2 := by
  cases f with
  | named ns =>
      cases d1 <;> cases d2 <;> simp_all [conformsData]
      cases p <;> simp [patternMatchesValue]
  | unit =>
      cases d1 <;> cases d2 <;> simp_all [conformsData]
  | unnamed ts =>
      cases d1 <;> cases d2 <;> simp_all [conformsData]
      cases p with
      | barePat e vid => rfl
      | tuplePat e vid n => simp [patternMatchesValue, h1, h2]
      | bracePat e vid => rfl

lemma runMatch_ext (arms : List MatchArm) (ident : String) (d1 d2 : FieldData)
    (h : ∀ arm ∈ arms,
      patternMatchesValue arm.pattern ident d1 =
        patternMatchesValue arm.pattern ident d2) :
    runMatch arms ident d1 = runMatch arms ident d2 := by
  induction arms with
  | nil => rfl
  | cons arm rest ih =>
      have harm := h arm (List.mem_cons_self arm rest)
      have hrest := ih (fun a ha => h a (List.mem_cons_of_mem _ ha))
      simp only [runMatch]
      rw [harm, hrest]

lemma runMatch_eq_none_iff (arms : List MatchArm) (ident : String) (d : FieldData) :
    runMatch arms ident d = none ↔
      ∀ arm ∈ arms, patternMatchesValue arm.pattern ident d = false := by
  induction arms with
  | nil => simp [runMatch]
  | cons arm rest ih =>
      by_cases hc : patternMatchesValue arm.pattern ident d = true
      · simp [runMatch, hc]
      · simp only [Bool.not_eq_true] at hc
        simp [runMatch, hc, ih]

lemma armsTotal_mem (e : String) (k : Nat) (l : List Variant)
    (i : Nat) (hi : i < l.length) :
    ({ pattern := totalPattern e l[i], ordinal := k + i } : MatchArm) ∈
      armsTotal e k l := by
  induction l generalizing k i with
  | nil => simp at hi
  | cons v rest ih =>
      cases i with
      | zero => simp [armsTotal]
      | succ j =>
          have hj : j < rest.length := by simpa using hi
          have harith : k + (j + 1) = k + 1 + j := by omega
          simp only [armsTotal, List.getElem_cons_succ, harith]
          exact List.mem_cons_of_mem _ (ih (k + 1) j hj)

lemma runMatch_armsTotal (e : String) (k : Nat) (l : List Variant)
    (i : Nat) (hi : i < l.length) (d : FieldData)
    (hnodup : (l.map Variant.ident).Nodup)
    (hmatch : patternMatchesValue (totalPattern e l[i]) (l[i].ident) d = true) :
    runMatch (armsTotal e k l) (l[i].ident) d = some (k + i) := by
  induction l generalizing k i with
  | nil => simp at hi
  | cons v rest ih =>
      cases i with
      | zero =>
          simp only [List.getElem_cons_zero] at hmatch ⊢
          simp [armsTotal, runMatch, hmatch]
      | succ j =>
          have hj : j < rest.length := by simpa using hi
          simp only [List.getElem_cons_succ] at hmatch ⊢
          have hnotmem : v.ident ∉ rest.map Variant.ident :=
            (List.nodup_cons.mp hnodup).1
          have hne : v.ident ≠ rest[j].ident := by
            intro heq
            exact hnotmem (heq ▸ List.mem_map_of_mem Variant.ident
              (List.getElem_mem hj))
          have hhead := totalPattern_no_match e v (rest[j].ident) d hne
          have harith : k + 1 + j = k + (j + 1) := by omega
          simp only [armsTotal, runMatch, hhead, Bool.false_eq_true, if_false]
          rw [ih (k + 1) j hj (List.nodup_cons.mp hnodup).2 hmatch, harith]

lemma no_zero_arity_getElem (vs : List SynVariant)
    (hz : hasZeroArityTuple vs = false) (i : Nat) (hi : i < vs.length) :
    (vs[i]).fields ≠ Fields.unnamed [] := by
  intro heq
  have hmem : vs[i] ∈ vs := List.getElem_mem hi
  simp only [hasZeroArityTuple, List.any_eq_false] at hz
  exact hz (vs[i]) hmem (by simp [heq])

lemma armsTotal_mem_inv (e : String) (k : Nat) (l : List Variant)
    (arm : MatchArm) (h : arm ∈ armsTotal e k l) :
    ∃ i, ∃ hi : i < l.length,
      arm = { pattern := totalPattern e l[i], ordinal := k + i } := by
  obtain ⟨i, hi, hget⟩ := List.mem_iff_getElem.mp h
  have hi2 : i < l.length := by
    rw [armsTotal_length] at hi
    exact hi
  refine ⟨i, hi2, ?_⟩
  have h2 : (armsTotal e k l)[i]? = some arm := by
    rw [List.getElem?_eq_getElem hi, hget]
  rw [armsTotal_getElem e k l i hi2] at h2
  exact (Option.some_inj.mp h2).symm

lemma totalPattern_wellFormed (e : String) (vs : List SynVariant)
    (sv : SynVariant) (hmem : sv ∈ vs) (hz : sv.fields ≠ Fields.unnamed []) :
    patternWellFormed vs (totalPattern e (detect_variant sv)) = true := by
  rcases sv with ⟨id, f⟩
  cases f with
  | named ns =>
      have hpat : totalPattern e (detect_variant { ident := id, fields := Fields.named ns }) =
          Pattern.bracePat e id := rfl
      rw [hpat]
      simp only [patternWellFormed, List.any_eq_true]
      exact ⟨{ ident := id, fields := Fields.named ns }, hmem, by simp⟩
  | unit =>
      have hpat : totalPattern e (detect_variant { ident := id, fields := Fields.unit }) =
          Pattern.barePat e id := rfl
      rw [hpat]
      simp only [patternWellFormed, List.any_eq_true]
      exact ⟨{ ident := id, fields := Fields.unit }, hmem, by simp⟩
  | unnamed ts =>
      have hts : ts ≠ [] := by
        intro h
        exact hz (by simp [h])
      have h0 : ts.length ≠ 0 := by
        simpa [List.length_eq_zero] using hts
      have hpat : totalPattern e (detect_variant { ident := id, fields := Fields.unnamed ts }) =
          Pattern.tuplePat e id ts.length := by
        simp [detect_variant, totalPattern, h0]
      rw [hpat]
      simp only [patternWellFormed, List.any_eq_true]
      refine ⟨{ ident := id, fields := Fields.unnamed ts }, hmem, ?_⟩
      simp

/-! ### Claims -/

/-- A variant declared with an empty unnamed-field list, i.e. a
zero-arity tuple variant `V()`. Its spec-level shape is
`UnnamedFields 0`. -/
def zeroArityVariant : SynVariant :=
  { ident := "V", fields := Fields.unnamed [] }

/-- An enum whose only variant is the zero-arity tuple variant. -/
def zeroArityInput : DeriveInput :=
  { ident := "E", generics := [], data := Data.dataEnum [zeroArityVariant] }

/-- C1 (counterexample): the claim as stated fails on `enum E { V() }`.
The value `E::V()` conforms to its variant and the transform emits the
single arm `E::V => 0`, but `E::V` is a path pattern against a tuple
variant — ill-formed in Rust (error E0532), so the generated method does
not compile — and the value matches no arm: the match yields `none`,
not `some 0`. -/
theorem claim_C1_counterexample :
    conformsData zeroArityVariant.fields (FieldData.unnamedData []) = true ∧
    derive_ordinal zeroArityInput =
      DeriveResult.ok
        { typeName := "E", generics := [],
          arms := [{ pattern := Pattern.barePat "E" "V", ordinal := 0 }] } ∧
    patternWellFormed [zeroArityVariant] (Pattern.barePat "E" "V") = false ∧
    runMatch [{ pattern := Pattern.barePat "E" "V", ordinal := 0 }] "V"
      (FieldData.unnamedData []) = none ∧
    runMatch [{ pattern := Pattern.barePat "E" "V", ordinal := 0 }] "V"
      (FieldData.unnamedData []) ≠ some 0 := by
  refine ⟨by decide, by decide, by decide, by decide, by decide⟩

/-- C1 (amended): for every enum in which no variant is declared with an
empty unnamed-field list, and for every index `i`, invoking the generated
`ordinal` method on any value constructed as the `i`-th variant (with
arbitrary conforming field contents) returns `i`. (For an enum containing
a zero-arity tuple variant the emitted bare-path arm is ill-formed — Rust
E0532 — and the generated method does not compile.) Variant identifiers
are unique within an enum declaration (a host-language guarantee), stated
here as the `Nodup` hypothesis. -/
theorem claim_C1 (name : String) (gs : List String) (vs : List SynVariant)
    (hz : hasZeroArityTuple vs = false)
    (i : Nat) (hi : i < vs.length)
    (hnodup : (vs.map SynVariant.ident).Nodup)
    (d : FieldData) (hd : conformsData ((vs[i]).fields) d = true)
    (out : GeneratedImpl)
    (hout : derive_ordinal { ident := name, generics := gs, data := Data.dataEnum vs } =
      DeriveResult.ok out) :
    runMatch out.arms ((vs[i]).ident) d = some i := by
  rw [derive_ordinal_enum] at hout
  injection hout with h
  subst h
  have hi2 : i < (vs.map detect_variant).length := by simpa using hi
  have hident : ((vs.map detect_variant)[i]).ident = (vs[i]).ident := by
    simp [detect_variant_ident]
  have hgm : (vs.map detect_variant)[i] = detect_variant (vs[i]) := by simp
  have hmatch : patternMatchesValue (totalPattern name ((vs.map detect_variant)[i]))
      (((vs.map detect_variant)[i]).ident) d = true := by
    rw [hgm, detect_variant_ident]
    exact totalPattern_matches_conform name (vs[i]) d hd
      (no_zero_arity_getElem vs hz i hi)
  have hnodup2 : ((vs.map detect_variant).map Variant.ident).Nodup := by
    rw [detect_variants_idents]
    exact hnodup
  have hrun := runMatch_armsTotal name 0 (vs.map detect_variant) i hi2 d hnodup2 hmatch
  rw [hident] at hrun
  simpa using hrun

theorem claim_C1_witness :
    hasZeroArityTuple
      [{ ident := "Dog", fields := Fields.unit },
       { ident := "Cat", fields := Fields.named [("age", "i32")] }] = false ∧
    conformsData (Fields.named [("age", "i32")])
      (FieldData.namedData [("age", 10)]) = true ∧
    runMatch
      [{ pattern := Pattern.barePat "Animal" "Dog", ordinal := 0 },
       { pattern := Pattern.bracePat "Animal" "Cat", ordinal := 1 }]
      "Cat" (FieldData.namedData [("age", 10)]) = some 1 :=
  ⟨by decide, by decide,
    claim_C1 "Animal" []
      [{ ident := "Dog", fields := Fields.unit },
       { ident := "Cat", fields := Fields.named [("age", "i32")] }]
      (by decide) 1 (by decide) (by decide) (FieldData.namedData [("age", 10)])
      (by decide)
      { typeName := "Animal", generics := [],
        arms := [{ pattern := Pattern.barePat "Animal" "Dog", ordinal := 0 },
                 { pattern := Pattern.bracePat "Animal" "Cat", ordinal := 1 }] }
      (by decide)⟩

/-- C3: requesting the derive on a non-enum declaration fails fatally:
the collector itself (before any arm synthesis) returns the
"not an enum" error attached to the call site, and the whole transform
returns that compile error and no generated impl (the `compileError`
outcome carries no partial output). -/
theorem claim_C3 (input : DeriveInput) (h : isEnumData input.data = false) :
    detect_variants input =
      Except.error
        { message := "cannot derive `Ordinal` on an item which is not an enum",
          location := ErrorLocation.callSite } ∧
    derive_ordinal input =
      DeriveResult.compileError
        { message := "cannot derive `Ordinal` on an item which is not an enum",
          location := ErrorLocation.callSite } := by
  obtain ⟨id, gs, d⟩ := input
  cases d with
  | dataEnum vs => simp [isEnumData] at h
  | dataStruct f => exact ⟨rfl, rfl⟩
  | dataUnion m => exact ⟨rfl, rfl⟩

theorem claim_C3_witness :
    isEnumData (Data.dataStruct (Fields.named [("x", "i32"), ("y", "i32")])) = false ∧
    (detect_variants
        { ident := "Point", generics := [],
          data := Data.dataStruct (Fields.named [("x", "i32"), ("y", "i32")]) } =
      Except.error
        { message := "cannot derive `Ordinal` on an item which is not an enum",
          location := ErrorLocation.callSite } ∧
    derive_ordinal
        { ident := "Point", generics := [],
          data := Data.dataStruct (Fields.named [("x", "i32"), ("y", "i32")]) } =
      DeriveResult.compileError
        { message := "cannot derive `Ordinal` on an item which is not an enum",
          location := ErrorLocation.callSite }) :=
  ⟨rfl, claim_C3 _ rfl⟩

/-- C4: for every enum input the ordinals of the synthesized arms are
exactly `0, 1, ..., n-1` in declaration order (dense, unique, strictly
increasing), and the `i`-th arm carries ordinal `i` and tests for the
`i`-th declared variant's identifier, whatever its name or shape. -/
theorem claim_C4 (name : String) (gs : List String) (vs : List SynVariant)
    (out : GeneratedImpl)
    (hout : derive_ordinal { ident := name, generics := gs, data := Data.dataEnum vs } =
      DeriveResult.ok out)
    (i : Nat) (hi : i < vs.length) :
    out.arms.map MatchArm.ordinal = List.range vs.length ∧
    (out.arms[i]?).map MatchArm.ordinal = some i ∧
    (out.arms[i]?).map armVariantIdent = some ((vs[i]).ident) := by
  rw [derive_ordinal_enum] at hout
  injection hout with h
  subst h
  have hi2 : i < (vs.map detect_variant).length := by simpa using hi
  refine ⟨?_, ?_, ?_⟩
  · show (armsTotal name 0 (vs.map detect_variant)).map MatchArm.ordinal = _
    rw [armsTotal_ordinals, List.range_eq_range']
    simp
  · show ((armsTotal name 0 (vs.map detect_variant))[i]?).map MatchArm.ordinal = _
    rw [armsTotal_getElem name 0 _ i hi2]
    simp
  · show ((armsTotal name 0 (vs.map detect_variant))[i]?).map armVariantIdent = _
    rw [armsTotal_getElem name 0 _ i hi2]
    simp [armVariantIdent, patternIdentOf_totalPattern, detect_variant_ident]

theorem claim_C4_witness :
    ([{ pattern := Pattern.tuplePat "Test" "A" 1, ordinal := 0 },
      { pattern := Pattern.bracePat "Test" "B", ordinal := 1 },
      { pattern := Pattern.tuplePat "Test" "C" 2, ordinal := 2 },
      { pattern := Pattern.barePat "Test" "D", ordinal := 3 }] :
        List MatchArm).map MatchArm.ordinal = List.range 4 ∧
    (([{ pattern := Pattern.tuplePat "Test" "A" 1, ordinal := 0 },
       { pattern := Pattern.bracePat "Test" "B", ordinal := 1 },
       { pattern := Pattern.tuplePat "Test" "C" 2, ordinal := 2 },
       { pattern := Pattern.barePat "Test" "D", ordinal := 3 }] :
        List MatchArm)[2]?).map MatchArm.ordinal = some 2 ∧
    (([{ pattern := Pattern.tuplePat "Test" "A" 1, ordinal := 0 },
       { pattern := Pattern.bracePat "Test" "B", ordinal := 1 },
       { pattern := Pattern.tuplePat "Test" "C" 2, ordinal := 2 },
       { pattern := Pattern.barePat "Test" "D", ordinal := 3 }] :
        List MatchArm)[2]?).map armVariantIdent = some "C" :=
  claim_C4 "Test" []
    [{ ident := "A", fields := Fields.unnamed ["i32"] },
     { ident := "B", fields := Fields.named [("named1", "String"), ("named2", "i32")] },
     { ident := "C", fields := Fields.unnamed ["i64", "i32"] },
     { ident := "D", fields := Fields.unit }]
    { typeName := "Test", generics := [],
      arms := [{ pattern := Pattern.tuplePat "Test" "A" 1, ordinal := 0 },
               { pattern := Pattern.bracePat "Test" "B", ordinal := 1 },
               { pattern := Pattern.tuplePat "Test" "C" 2, ordinal := 2 },
               { pattern := Pattern.barePat "Test" "D", ordinal := 3 }] }
    (by decide) 2 (by decide)

/-- C5: shape detection follows the spec's fixed precedence — named
fields give `NamedFields` (names and types discarded), else an
unnamed-field list gives `UnnamedFields` of its length (possibly zero),
else `NoFields` — and the collector's record is exactly the
representation of that shape, so two variants with the same identifier
and the same declared shape yield the same record regardless of field
names and types. -/
theorem claim_C5 (sv w : SynVariant) (hid : w.ident = sv.ident)
    (hsh : declaredShape w.fields = declaredShape sv.fields) :
    detect_variant sv =
      { ident := sv.ident,
        unit_field_count := shapeFieldCount (declaredShape sv.fields),
        has_named_fields := shapeHasNamed (declaredShape sv.fields) } ∧
    detect_variant w = detect_variant sv := by
  constructor
  · rcases sv with ⟨id, f⟩
    cases f <;> rfl
  · rcases sv with ⟨id, f⟩
    rcases w with ⟨id2, f2⟩
    simp only at hid hsh
    subst hid
    cases f <;> cases f2 <;> simp_all [declaredShape, detect_variant]

theorem claim_C5_witness :
    ({ ident := "B", fields := Fields.named [("name", "String"), ("id", "u64")] } :
        SynVariant).ident =
      ({ ident := "B", fields := Fields.named [("age", "i32")] } : SynVariant).ident ∧
    declaredShape (Fields.named [("name", "String"), ("id", "u64")]) =
      declaredShape (Fields.named [("age", "i32")]) ∧
    (detect_variant { ident := "B", fields := Fields.named [("age", "i32")] } =
      { ident := "B", unit_field_count := 0, has_named_fields := true } ∧
    detect_variant
        { ident := "B", fields := Fields.named [("name", "String"), ("id", "u64")] } =
      detect_variant { ident := "B", fields := Fields.named [("age", "i32")] }) :=
  ⟨rfl, rfl,
    claim_C5 { ident := "B", fields := Fields.named [("age", "i32")] }
      { ident := "B", fields := Fields.named [("name", "String"), ("id", "u64")] }
      rfl rfl⟩

/-- C6: the generated method's result does not depend on field contents:
two values of the same enum constructed as the same variant but with
different (conforming) field values take the same path through the
generated match and yield the same ordinal. -/
theorem claim_C6 (name : String) (gs : List String) (vs : List SynVariant)
    (out : GeneratedImpl)
    (_hout : derive_ordinal { ident := name, generics := gs, data := Data.dataEnum vs } =
      DeriveResult.ok out)
    (i : Nat) (hi : i < vs.length) (d1 d2 : FieldData)
    (h1 : conformsData ((vs[i]).fields) d1 = true)
    (h2 : conformsData ((vs[i]).fields) d2 = true) :
    runMatch out.arms ((vs[i]).ident) d1 = runMatch out.arms ((vs[i]).ident) d2 := by
  apply runMatch_ext
  intro arm _
  exact conform_match_congr _ d1 d2 h1 h2 arm.pattern _

theorem claim_C6_witness :
    conformsData (Fields.unnamed ["i64", "i32"]) (FieldData.unnamedData [10, 0]) = true ∧
    conformsData (Fields.unnamed ["i64", "i32"]) (FieldData.unnamedData [777, 42]) = true ∧
    runMatch
      [{ pattern := Pattern.tuplePat "Test" "A" 1, ordinal := 0 },
       { pattern := Pattern.tuplePat "Test" "C" 2, ordinal := 1 }]
      "C" (FieldData.unnamedData [10, 0]) =
    runMatch
      [{ pattern := Pattern.tuplePat "Test" "A" 1, ordinal := 0 },
       { pattern := Pattern.tuplePat "Test" "C" 2, ordinal := 1 }]
      "C" (FieldData.unnamedData [777, 42]) :=
  ⟨by decide, by decide,
    claim_C6 "Test" []
      [{ ident := "A", fields := Fields.unnamed ["i32"] },
       { ident := "C", fields := Fields.unnamed ["i64", "i32"] }]
      { typeName := "Test", generics := [],
        arms := [{ pattern := Pattern.tuplePat "Test" "A" 1, ordinal := 0 },
                 { pattern := Pattern.tuplePat "Test" "C" 2, ordinal := 1 }] }
      (by decide) 1 (by decide) (FieldData.unnamedData [10, 0])
      (FieldData.unnamedData [777, 42]) (by decide) (by decide)⟩

/-- C7 (counterexample): the exhaustiveness part of the claim as stated
fails on `enum E { V() }`: the value `E::V()` conforms to its variant,
but the single emitted arm is the bare path `E::V` — ill-formed against
a tuple variant (Rust error E0532), so no generated match compiles for
such an enum — and the value matches no arm. -/
theorem claim_C7_counterexample :
    conformsData zeroArityVariant.fields (FieldData.unnamedData []) = true ∧
    derive_ordinal zeroArityInput =
      DeriveResult.ok
        { typeName := "E", generics := [],
          arms := [{ pattern := Pattern.barePat "E" "V", ordinal := 0 }] } ∧
    armWellFormed [zeroArityVariant]
      { pattern := Pattern.barePat "E" "V", ordinal := 0 } = false ∧
    (runMatch [{ pattern := Pattern.barePat "E" "V", ordinal := 0 }] "V"
      (FieldData.unnamedData [])).isSome = false := by
  refine ⟨by decide, by decide, by decide, by decide⟩

/-- C7 (amended): for every enum in which no variant is declared with an
empty unnamed-field list, the synthesized rule set is exhaustive — every
conforming value of a declared variant matches some generated arm — and
every emitted arm is a legal Rust pattern for the declaration; moreover
the emitted match contains exactly one arm per declared variant, in
order, with no default or fallback rule (every arm tests a declared
variant's identifier; the `Pattern` grammar of the emitted arms has no
catch-all form). (For an enum containing a zero-arity tuple variant the
bare-path arm is ill-formed — Rust E0532 — and no generated match
compiles.) -/
theorem claim_C7 (name : String) (gs : List String) (vs : List SynVariant)
    (hz : hasZeroArityTuple vs = false)
    (out : GeneratedImpl)
    (hout : derive_ordinal { ident := name, generics := gs, data := Data.dataEnum vs } =
      DeriveResult.ok out)
    (i : Nat) (hi : i < vs.length) (d : FieldData)
    (hd : conformsData ((vs[i]).fields) d = true) :
    (runMatch out.arms ((vs[i]).ident) d).isSome = true ∧
    out.arms.all (armWellFormed vs) = true ∧
    out.arms.length = vs.length ∧
    out.arms.map armVariantIdent = vs.map SynVariant.ident := by
  rw [derive_ordinal_enum] at hout
  injection hout with h
  subst h
  have hi2 : i < (vs.map detect_variant).length := by simpa using hi
  refine ⟨?_, ?_, ?_, ?_⟩
  · have hgm : (vs.map detect_variant)[i] = detect_variant (vs[i]) := by simp
    have hmem := armsTotal_mem name 0 (vs.map detect_variant) i hi2
    have hmatch : patternMatchesValue (totalPattern name ((vs.map detect_variant)[i]))
        ((vs[i]).ident) d = true := by
      rw [hgm]
      exact totalPattern_matches_conform name (vs[i]) d hd
        (no_zero_arity_getElem vs hz i hi)
    have hne : runMatch (armsTotal name 0 (vs.map detect_variant)) ((vs[i]).ident) d ≠
        none := by
      intro hnone
      have hall := (runMatch_eq_none_iff _ _ _).mp hnone
      have hfalse := hall _ hmem
      simp only at hfalse
      rw [hfalse] at hmatch
      cases hmatch
    simpa [Option.isSome_iff_ne_none] using hne
  · show (armsTotal name 0 (vs.map detect_variant)).all (armWellFormed vs) = true
    rw [List.all_eq_true]
    intro arm harm
    obtain ⟨j, hj, rfl⟩ := armsTotal_mem_inv name 0 (vs.map detect_variant) arm harm
    have hj2 : j < vs.length := by simpa using hj
    have hgm : (vs.map detect_variant)[j] = detect_variant (vs[j]) := by simp
    simp only [armWellFormed, hgm]
    exact totalPattern_wellFormed name vs (vs[j]) (List.getElem_mem hj2)
      (no_zero_arity_getElem vs hz j hj2)
  · show (armsTotal name 0 (vs.map detect_variant)).length = _
    rw [armsTotal_length]
    simp
  · show (armsTotal name 0 (vs.map detect_variant)).map armVariantIdent = _
    rw [armsTotal_idents, detect_variants_idents]

theorem claim_C7_witness :
    hasZeroArityTuple
      [{ ident := "A", fields := Fields.unnamed ["i32"] },
       { ident := "D", fields := Fields.unit }] = false ∧
    conformsData Fields.unit FieldData.unitData = true ∧
    ((runMatch
        [{ pattern := Pattern.tuplePat "Test" "A" 1, ordinal := 0 },
         { pattern := Pattern.barePat "Test" "D", ordinal := 1 }]
        "D" FieldData.unitData).isSome = true ∧
    ([{ pattern := Pattern.tuplePat "Test" "A" 1, ordinal := 0 },
      { pattern := Pattern.barePat "Test" "D", ordinal := 1 }] :
        List MatchArm).all
      (armWellFormed
        [{ ident := "A", fields := Fields.unnamed ["i32"] },
         { ident := "D", fields := Fields.unit }]) = true ∧
    ([{ pattern := Pattern.tuplePat "Test" "A" 1, ordinal := 0 },
      { pattern := Pattern.barePat "Test" "D", ordinal := 1 }] :
        List MatchArm).length = 2 ∧
    ([{ pattern := Pattern.tuplePat "Test" "A" 1, ordinal := 0 },
      { pattern := Pattern.barePat "Test" "D", ordinal := 1 }] :
        List MatchArm).map armVariantIdent = ["A", "D"]) :=
  ⟨by decide, by decide,
    claim_C7 "Test" []
      [{ ident := "A", fields := Fields.unnamed ["i32"] },
       { ident := "D", fields := Fields.unit }]
      (by decide)
      { typeName := "Test", generics := [],
        arms := [{ pattern := Pattern.tuplePat "Test" "A" 1, ordinal := 0 },
                 { pattern := Pattern.barePat "Test" "D", ordinal := 1 }] }
      (by decide) 1 (by decide) FieldData.unitData (by decide)⟩

/-- C8: every `Variant` record produced by `detect_variant` satisfies
the invariant that named fields imply a zero unit-field count, the arm
generation therefore never hits its `unreachable!()` arm on any enum
input, and the transform never panics. -/
theorem claim_C8 (input : DeriveInput) (vs : List SynVariant)
    (h : input.data = Data.dataEnum vs) :
    (vs.map detect_variant).all variantInvariant = true ∧
    (generate_match_arms (vs.map detect_variant) input).isSome = true ∧
    derive_ordinal input ≠ DeriveResult.panicked := by
  refine ⟨?_, ?_, ?_⟩
  · rw [List.all_eq_true]
    intro v hv
    obtain ⟨sv, hsv, rfl⟩ := List.mem_map.mp hv
    rcases sv with ⟨id, f⟩
    cases f <;> simp [detect_variant, variantInvariant]
  · rw [generate_match_arms_eq]
    rfl
  · rw [derive_ordinal_enum_data input vs h]
    simp

theorem claim_C8_witness :
    ({ ident := "Mixed", generics := [],
       data := Data.dataEnum
         [{ ident := "A", fields := Fields.unit },
          { ident := "B", fields := Fields.named [("x", "i32")] },
          { ident := "C", fields := Fields.unnamed ["i64", "i32"] },
          { ident := "Z", fields := Fields.unnamed [] }] } : DeriveInput).data =
      Data.dataEnum
        [{ ident := "A", fields := Fields.unit },
         { ident := "B", fields := Fields.named [("x", "i32")] },
         { ident := "C", fields := Fields.unnamed ["i64", "i32"] },
         { ident := "Z", fields := Fields.unnamed [] }] ∧
    (([{ ident := "A", fields := Fields.unit },
       { ident := "B", fields := Fields.named [("x", "i32")] },
       { ident := "C", fields := Fields.unnamed ["i64", "i32"] },
       { ident := "Z", fields := Fields.unnamed [] }].map detect_variant).all
        variantInvariant = true ∧
    (generate_match_arms
        ([{ ident := "A", fields := Fields.unit },
          { ident := "B", fields := Fields.named [("x", "i32")] },
          { ident := "C", fields := Fields.unnamed ["i64", "i32"] },
          { ident := "Z", fields := Fields.unnamed [] }].map detect_variant)
        { ident := "Mixed", generics := [],
          data := Data.dataEnum
            [{ ident := "A", fields := Fields.unit },
             { ident := "B", fields := Fields.named [("x", "i32")] },
             { ident := "C", fields := Fields.unnamed ["i64", "i32"] },
             { ident := "Z", fields := Fields.unnamed [] }] }).isSome = true ∧
    derive_ordinal
        { ident := "Mixed", generics := [],
          data := Data.dataEnum
            [{ ident := "A", fields := Fields.unit },
             { ident := "B", fields := Fields.named [("x", "i32")] },
             { ident := "C", fields := Fields.unnamed ["i64", "i32"] },
             { ident := "Z", fields := Fields.unnamed [] }] } ≠
      DeriveResult.panicked) :=
  ⟨rfl, claim_C8 _ _ rfl⟩

/-- C9: an enum declared with zero variants is transformed successfully —
the fatal error path is not taken — and the generated method's match has
zero arms. -/
theorem claim_C9 (name : String) (gs : List String) :
    derive_ordinal { ident := name, generics := gs, data := Data.dataEnum [] } =
      DeriveResult.ok { typeName := name, generics := [], arms := [] } :=
  derive_ordinal_enum name gs []

/-- C10: for every enum input the emitted impl block names only the bare
enum identifier and repeats none of the declaration's generic or lifetime
parameters. -/
theorem claim_C10 (input : DeriveInput) (vs : List SynVariant)
    (h : input.data = Data.dataEnum vs) (out : GeneratedImpl)
    (hout : derive_ordinal input = DeriveResult.ok out) :
    out.typeName = input.ident ∧ out.generics = [] := by
  rw [derive_ordinal_enum_data input vs h] at hout
  injection hout with h2
  subst h2
  exact ⟨rfl, rfl⟩

theorem claim_C10_witness :
    ({ ident := "Wrapper", generics := ["T", "'a"],
       data := Data.dataEnum [{ ident := "V", fields := Fields.unnamed ["T"] }] } :
        DeriveInput).data =
      Data.dataEnum [{ ident := "V", fields := Fields.unnamed ["T"] }] ∧
    derive_ordinal
        { ident := "Wrapper", generics := ["T", "'a"],
          data := Data.dataEnum [{ ident := "V", fields := Fields.unnamed ["T"] }] } =
      DeriveResult.ok
        { typeName := "Wrapper", generics := [],
          arms := [{ pattern := Pattern.tuplePat "Wrapper" "V" 1, ordinal := 0 }] } ∧
    (({ typeName := "Wrapper", generics := [],
        arms := [{ pattern := Pattern.tuplePat "Wrapper" "V" 1, ordinal := 0 }] } :
          GeneratedImpl).typeName = "Wrapper" ∧
     ({ typeName := "Wrapper", generics := [],
        arms := [{ pattern := Pattern.tuplePat "Wrapper" "V" 1, ordinal := 0 }] } :
          GeneratedImpl).generics = ([] : List String)) :=
  ⟨rfl, by decide,
    claim_C10
      { ident := "Wrapper", generics := ["T", "'a"],
        data := Data.dataEnum [{ ident := "V", fields := Fields.unnamed ["T"] }] }
      [{ ident := "V", fields := Fields.unnamed ["T"] }] rfl
      { typeName := "Wrapper", generics := [],
        arms := [{ pattern := Pattern.tuplePat "Wrapper" "V" 1, ordinal := 0 }] }
      (by decide)⟩
